import Mathlib

/-!
# Verification of the tap-vendit sync engine

Shallow embedding of the core of `tap_vendit` (auth.py, streams.py):
token validity and refresh, the token-file persistence, the HTTP request
gateway with its single-retry-on-401 policy, the offset-paginated Find
loop, the batched GetMultiple detail fetch, and the two incremental
cursor flavors (ISO-timestamp replication key and unix-millisecond
checkpoint).

Conventions of the embedding:
* Python scalar values that can live in a JSON object / config dict are
  modelled by `JVal`; dicts are association lists (`Dict`) whose
  `setKey` has Python `d[k] = v` semantics (replace the first binding
  of the key, else append) and whose `dget` is `d.get(k)`.
* A parsed JSON document (`response.json()`) is a `Json`: a scalar, an
  array, or an object.  A body that fails JSON decoding is `none` at
  the `Option Json` level.
* Network effects are passed in as explicit parameters: an HTTP
  response is a status code plus parsed payload, a server is a function
  from the request index (or the request payload) to a response, and a
  transport-level failure is the `.error` case of an `Except`.
* `datetime` values are represented by their ISO-8601 string, so
  `datetime.fromisoformat` is the identity on that representation and
  `datetime(1970, 1, 1)` is the string "1970-01-01T00:00:00".
* The wall clock (`time.time()`) is a function `now : Nat → Int` from
  the logical position in the execution of one `get_records` call to
  the unix-millisecond reading at that position: position 0 is the
  entry of the call, position 1 is just after the HTTP response, and
  position `1 + k` is just after the k-th record has been yielded.
-/

/-- A Python scalar value as stored in a JSON object or config dict. -/
inductive JVal where
  | vnull
  | vbool (b : Bool)
  | vint (n : Int)
  | vstr (s : String)
deriving DecidableEq, Repr

/-- A Python dict with scalar values, as an association list. -/
abbrev Dict := List (String × JVal)

/-- A parsed JSON document (`response.json()` result). -/
inductive Json where
  | scalar (v : JVal)
  | array (items : List JVal)
  | object (fields : Dict)
deriving DecidableEq, Repr

/-- Python `d.get(k)`: the value of the first binding of `k`, if any. -/
def dget (d : Dict) (k : String) : Option JVal :=
  (d.find? (fun p => p.1 == k)).map (fun p => p.2)

/-- Python `d[k] = v`: replace the first binding of `k`, else append. -/
def setKey : Dict → String → JVal → Dict
  | [], k, v => [(k, v)]
  | (k1, v1) :: rest, k, v =>
    if k1 == k then (k1, v) :: rest else (k1, v1) :: setKey rest k v

/-- Python `d.update(new)`: set every binding of `new` in `d`, in order. -/
def dictUpdate (d new : Dict) : Dict :=
  new.foldl (fun acc p => setKey acc p.1 p.2) d

theorem dget_setKey_same (d : Dict) (k : String) (v : JVal) :
    dget (setKey d k v) k = some v := by
  induction d with
  | nil => simp [setKey, dget, List.find?]
  | cons p rest ih =>
    obtain ⟨k1, v1⟩ := p
    by_cases h : k1 = k
    · subst h
      simp [setKey, dget, List.find?]
    · have hbeq : (k1 == k) = false := beq_eq_false_iff_ne.mpr h
      simp only [setKey, hbeq]
      simpa [dget, List.find?, hbeq] using ih

theorem dget_setKey_ne (d : Dict) (k k2 : String) (v : JVal) (h : k2 ≠ k) :
    dget (setKey d k v) k2 = dget d k2 := by
  induction d with
  | nil =>
    have hbeq : (k == k2) = false := beq_eq_false_iff_ne.mpr (Ne.symm h)
    simp [setKey, dget, List.find?, hbeq]
  | cons p rest ih =>
    obtain ⟨k1, v1⟩ := p
    by_cases h1 : k1 = k
    · subst h1
      have hbeq : (k1 == k1) = true := beq_self_eq_true k1
      have hbeq2 : (k1 == k2) = false := beq_eq_false_iff_ne.mpr (fun e => h (e ▸ rfl))
      simp [setKey, dget, List.find?, hbeq, hbeq2]
    · have hbeq : (k1 == k) = false := beq_eq_false_iff_ne.mpr h1
      by_cases h2 : k1 = k2
      · subst h2
        simp [setKey, dget, List.find?, hbeq]
      · have hbeq2 : (k1 == k2) = false := beq_eq_false_iff_ne.mpr h2
        simp only [setKey, hbeq, if_neg]
        simpa [dget, List.find?, hbeq2] using ih

/-!
## Authenticator (auth.py)

`VenditAuthenticator.is_token_valid` reads `token` and `token_expire`
from the config (both possibly missing or falsy) and the current unix
time in seconds; `update_access_token` posts to the token endpoint and
parses `{token, expire}` out of the body.
-/

/-- `VenditAuthenticator.is_token_valid` (auth.py:203-217).  `token` is
the stored token string (`none` = key absent), `tokenExpire` the stored
expiry (`none` = key absent); Python falsiness makes `""` and `0` count
as absent.  `now` is `round(datetime.utcnow().timestamp())`. -/
def is_token_valid (token : Option String) (tokenExpire : Option Int)
    (now : Int) : Bool :=
  match token, tokenExpire with
  | some t, some e =>
    if t = "" || e = 0 then false
    else !(decide (e - now < 120))
  | _, _ => false

/-- The exception classes raised by `update_access_token` (auth.py:21-27):
`EmptyResponseError` and `TokenRefreshError`, each carrying its message. -/
inductive AuthErr where
  | emptyResponse (msg : String)
  | tokenRefresh (msg : String)
deriving DecidableEq, Repr

/-- The token endpoint's reply: HTTP status plus parsed body
(`none` when the body is not valid JSON, so `response.json()` raises). -/
structure TResp where
  status : Nat
  body : Option Json
deriving DecidableEq, Repr

/-- Does the parsed body pass
`isinstance(token_data, dict) and "token" in token_data` (auth.py:266)? -/
def hasTokenField : Json → Bool
  | .object fields => (dget fields "token").isSome
  | _ => false

/-- One attempt of `VenditAuthenticator.update_access_token`
(auth.py:238-279), without the backoff decorator.  The transport outcome
is either a `RequestException` (with its text) or a `TResp`.
`raise_for_status` raises `HTTPError` (a `RequestException`) for any
status >= 400, which the outer handler wraps in `TokenRefreshError`; a
non-JSON body raises `EmptyResponseError`; a JSON body that is not a
dict with a "token" key raises `TokenRefreshError` with the
invalid-format message; otherwise the new `token_info` dict
`{token, token_expire}` is returned, `token_expire` defaulting to 0
when the body has no "expire" key. -/
def update_access_token (outcome : Except String TResp) :
    Except AuthErr Dict :=
  match outcome with
  | .error e => .error (.tokenRefresh ("Token refresh failed: " ++ e))
  | .ok r =>
    if 400 ≤ r.status then
      .error (.tokenRefresh ("Token refresh failed: status " ++ toString r.status))
    else
      match r.body with
      | none =>
        .error (.emptyResponse
          "Failed converting response to json, because response is empty")
      | some (Json.object fields) =>
        match dget fields "token" with
        | some tok =>
          .ok [("token", tok),
               ("token_expire", (dget fields "expire").getD (JVal.vint 0))]
        | none => .error (.tokenRefresh "Invalid token response format")
      | some _ => .error (.tokenRefresh "Invalid token response format")

/-- Is the result a raised `TokenRefreshError`? -/
def isTokenRefreshKind : Except AuthErr Dict → Bool
  | .error (.tokenRefresh _) => true
  | _ => false

/-- The retry loop installed by `@backoff.on_exception(backoff.expo,
(EmptyResponseError, RequestException, TokenRefreshError), max_tries=5,
factor=2)` (auth.py:232-237): attempt `i` uses the i-th transport
outcome; any of the raised error kinds is retried while tries remain.
`fuel` is the number of retries still allowed after the current
attempt.  Returns the final result and the number of attempts made. -/
def retry_update (resp : Nat → Except String TResp) :
    Nat → Nat → Except AuthErr Dict × Nat
  | i, 0 => (update_access_token (resp i), 1)
  | i, n + 1 =>
    match update_access_token (resp i) with
    | .ok v => (.ok v, 1)
    | .error _ =>
      let r := retry_update resp (i + 1) n
      (r.1, r.2 + 1)

/-- `update_access_token` as decorated: `max_tries = 5` means one
initial attempt plus at most 4 retries. -/
def update_access_token_with_retry (resp : Nat → Except String TResp) :
    Except AuthErr Dict × Nat :=
  retry_update resp 0 4

/-- The waits generated by `backoff.expo` (default base 2) with
`factor=2` between the 5 attempts: `factor * base ^ n` for n = 0..3. -/
def backoffDelays : List Nat :=
  (List.range 4).map (fun n => 2 * 2 ^ n)

/-!
## Token store (auth.py FileHandler)
-/

/-- `FileHandler._read_file` (auth.py:40-54): the prior file state is
`none` when the file is missing or malformed (both swallowed, returning
`{}`), else its parsed JSON object. -/
def read_file (file : Option Dict) : Dict := file.getD []

/-- `FileHandler._write_file` (auth.py:56-78): read the existing data,
`update` it with the new data, and write it back.  `writeOk` is whether
the filesystem write succeeds; a failed write is logged and swallowed,
leaving the file with its prior contents.  Returns the resulting file
state; the function is total because the `except` clause re-raises
nothing. -/
def write_file (file : Option Dict) (writeOk : Bool) (data : Dict) :
    Option Dict :=
  let existing := read_file file
  let newData := dictUpdate existing data
  if writeOk then some newData else file

/-- `update_access_token` followed by its persistence step
(auth.py:269-275): on a successful parse the `token_info` dict is
written through `TokenStorage.write_token = _write_file`; on failure
the file is untouched.  Returns the refresh result and the resulting
file state. -/
def update_and_persist (outcome : Except String TResp)
    (file : Option Dict) (writeOk : Bool) :
    Except AuthErr Dict × Option Dict :=
  match update_access_token outcome with
  | .ok info => (.ok info, write_file file writeOk info)
  | .error e => (.error e, file)

/-!
## HTTP request gateway (streams.py BaseStream._request)
-/

/-- The authenticator's mutable token state as read from the shared
config: `token` and `token_expire` (auth.py:209-211), each `none` when
the key is absent. -/
structure AuthState where
  token : Option String
  tokenExpire : Option Int
deriving DecidableEq, Repr

/-- One successful `update_access_token` call as seen from `_request`:
the k-th refresh performed during the call installs the token and
expiry the endpoint returns at that point (`refreshResult k`; an
absent `expire` arrives here already as its default 0, auth.py:271).
The second component counts the refreshes performed so far.  Refresh
failures raise out of `_request` after the backoff and issue no
request, so they are outside this model. -/
def do_refresh (refreshResult : Nat → String × Int) (s : AuthState × Nat) :
    AuthState × Nat :=
  (⟨some (refreshResult s.2).1, some (refreshResult s.2).2⟩, s.2 + 1)

/-- The check-then-maybe-refresh step: performed explicitly at
streams.py:62-64, and performed again inside the `auth_headers`
property (auth.py:185-186) every time `_request` reads it
(streams.py:67 and streams.py:75). -/
def ensure_valid (refreshResult : Nat → String × Int) (now : Int)
    (s : AuthState × Nat) : AuthState × Nat :=
  if is_token_valid s.1.token s.1.tokenExpire now then s
  else do_refresh refreshResult s

/-- The observable outcome of one `BaseStream._request` call. -/
structure GwResult where
  /-- Status code of the response returned to the caller. -/
  status : Nat
  /-- Number of HTTP requests issued. -/
  requestCount : Nat
  /-- The `Token` header value of each issued request, in order
  (`config.get("token")` at the moment the headers were built). -/
  tokensUsed : List (Option String)
  /-- `update_access_token` calls made before the first request. -/
  refreshesBefore : Nat
  /-- `update_access_token` calls made between first and second request. -/
  refreshesBetween : Nat
deriving DecidableEq, Repr

/-- `BaseStream._request` (streams.py:60-78).  Starting from the
`initial` token state: the explicit validity check of streams.py:62-64
(refresh if invalid), then the `auth_headers` read at streams.py:67,
which checks validity — and refreshes — once more (auth.py:185-186);
the first request is sent with the resulting token.  A 401 answer
triggers the unconditional refresh of streams.py:74, then the second
`auth_headers` read at streams.py:75 (again with its internal
conditional refresh), and exactly one retry; the retry's response — a
second 401 included — and any non-401 status are returned to the
caller, never raised.  `resp i` is the status of the i-th issued
request. -/
def gatewayRequest (initial : AuthState) (now : Int)
    (refreshResult : Nat → String × Int) (resp : Nat → Nat) : GwResult :=
  let s1 := ensure_valid refreshResult now (initial, 0)
  let s2 := ensure_valid refreshResult now s1
  let st1 := resp 0
  if st1 = 401 then
    let s3 := do_refresh refreshResult s2
    let s4 := ensure_valid refreshResult now s3
    { status := resp 1
      requestCount := 2
      tokensUsed := [s2.1.token, s4.1.token]
      refreshesBefore := s2.2
      refreshesBetween := s4.2 - s2.2 }
  else
    { status := st1
      requestCount := 1
      tokensUsed := [s2.1.token]
      refreshesBefore := s2.2
      refreshesBetween := 0 }

/-!
## Paginated Find loop (streams.py BaseFindStream.get_all_ids_with_filter)

The server is modelled as the finite list of successive pages it
serves: the loop's n-th request (at `paginationOffset = offset`)
receives the n-th page's `results` array; once the list is exhausted
the server answers with an empty `results` array.  Identifiers are
integers, the shape the vendor returns; Python falsiness on an int is
`= 0` and `str` is decimal rendering.
-/

/-- The `while True` loop of `get_all_ids_with_filter`
(streams.py:87-117), also inlined in `ProductsStream.get_records`
(streams.py:423-451), `OrdersStream` and `PurchaseOrdersStream`.
Returns the accumulated identifier strings and the list of
`paginationOffset` values of the issued requests. -/
def findLoop (pages : List (List Nat)) (pageSize offset : Nat) :
    List String × List Nat :=
  match pages with
  | [] => ([], [offset])
  | ids :: rest =>
    if ids.isEmpty then ([], [offset])
    else
      let pageIds := (ids.filter (fun i => i != 0)).map toString
      if ids.length < pageSize then (pageIds, [offset])
      else
        let r := findLoop rest pageSize (offset + pageSize)
        (pageIds ++ r.1, offset :: r.2)

/-- `get_all_ids_with_filter` with its fixed `page_size = 100` and
initial offset 0. -/
def get_all_ids_with_filter (pages : List (List Nat)) :
    List String × List Nat :=
  findLoop pages 100 0

/-!
## Batched detail fetch (streams.py BaseGetMultipleStream / ProductsStream)
-/

/-- The chunking performed by `for i in range(0, len(ids), 100):
batch = ids[i:i + 100]` (streams.py:127-128 and 458-459). -/
def chunks100 : List String → List (List String)
  | [] => []
  | a :: rest =>
    (a :: rest).take 100 :: chunks100 ((a :: rest).drop 100)
termination_by ids => ids.length
decreasing_by
  simp only [List.length_drop, List.length_cons]
  omega

/-- `BaseGetMultipleStream.get_records_batch` (streams.py:122-136), the
same loop inlined at streams.py:457-467: one POST with body
`{primaryKeys: batch}` per chunk; a non-200 chunk is logged and
skipped, the others still yield their `items`.  `resp` maps each chunk
payload to the server's (status, items) reply.  Returns the yielded
records and the list of chunk payloads actually sent. -/
def get_records_batch (ids : List String)
    (resp : List String → Nat × List Dict) : List Dict × List (List String) :=
  (chunks100 ids).foldl
    (fun acc batch =>
      let r := resp batch
      if r.1 ≠ 200 then (acc.1, acc.2 ++ [batch])
      else (acc.1 ++ r.2, acc.2 ++ [batch]))
    ([], [])

/-!
## Incremental cursor tracker (streams.py)
-/

/-- `BaseStream.get_starting_time`'s fallback chain after the
replication key (streams.py:55-58): configured `start_date` if truthy,
else `datetime(1970, 1, 1)`. -/
def startDateOrEpoch (startDate : Option String) : String :=
  match startDate with
  | some s => if s ≠ "" then s else "1970-01-01T00:00:00"
  | none => "1970-01-01T00:00:00"

/-- `BaseStream.get_starting_time` (streams.py:51-58): the saved
replication-key value if truthy, else the configured `start_date` if
truthy, else the 1970-01-01 epoch floor.  `datetime` values are
represented by their ISO string (`fromisoformat` is the identity on
this representation). -/
def get_starting_time (replicationValue startDate : Option String) :
    String :=
  match replicationValue with
  | some r => if r ≠ "" then r else startDateOrEpoch startDate
  | none => startDateOrEpoch startDate

/-- `BaseOptiplyStream.get_starting_unix` (streams.py:159-161): the
fixed Jan-1-2022 unix-millisecond constant. -/
def get_starting_unix : Int := 1640995200000

/-- The effective starting cursor of one Optiply run
(streams.py:169-174): the saved `replication_key_value` if present
(an `is None` check, not truthiness), else `get_starting_unix`. -/
def effective_start_unix (savedCheckpoint : Option Int) : Int :=
  savedCheckpoint.getD get_starting_unix

/-!
## Unix-cursor stream run (streams.py BaseOptiplyStream.get_records)

One run is embedded as the trace of its observable events, in
execution order, so that the *ordering* of yields, the single clock
read, and the state write is part of the model.
-/

/-- An observable event of one `get_records` run. -/
inductive RunEv where
  /-- The timestamped GET, carrying the unix cursor put in the URL. -/
  | request (cursor : Int)
  /-- One record yielded to the framework. -/
  | yielded (r : Dict)
  /-- The single `int(time.time() * 1000)` read, with its value. -/
  | clockRead (v : Int)
  /-- `context["replication_key_value"] = v`. -/
  | stateWrite (v : Int)
deriving DecidableEq, Repr

/-- `BaseOptiplyStream.get_records` (streams.py:167-205);
`SupplierProductsStream.get_records` (streams.py:666-705) has the same
control flow plus field flattening.  `context` is `none` when the
framework passes `context = None`, else `some` of the saved
`replication_key_value` (itself optional).  `now` is the wall clock
indexed by execution position (position 0 = entry of the call); the
code's one clock read happens after the response has been processed
and all `items` yielded, i.e. at position `1 + items.length`.  The
response is (status, items); a non-200 status returns before yielding
anything.  The state write happens only when `context is not None`. -/
def optiplyGetRecords (context : Option (Option Int)) (now : Nat → Int)
    (status : Nat) (items : List Dict) : List RunEv :=
  let lastSyncedUnix := effective_start_unix (context.getD none)
  if status ≠ 200 then [RunEv.request lastSyncedUnix]
  else
    let currentUnix := now (1 + items.length)
    RunEv.request lastSyncedUnix ::
      (items.map (fun item =>
          RunEv.yielded (setKey item "unix_timestamp"
            (JVal.vint lastSyncedUnix)))
        ++ RunEv.clockRead currentUnix ::
          (if context.isSome then [RunEv.stateWrite currentUnix] else []))

/-- The records a trace yields, in order. -/
def recordsOf (t : List RunEv) : List Dict :=
  t.filterMap (fun e =>
    match e with
    | RunEv.yielded r => some r
    | _ => none)

/-- The `replication_key_value` after a trace, starting from `init`:
each `stateWrite` overwrites it. -/
def finalReplValue (init : Option Int) (t : List RunEv) : Option Int :=
  t.foldl
    (fun acc e =>
      match e with
      | RunEv.stateWrite v => some v
      | _ => acc)
    init

/-!
## Helper lemmas: Find-loop pagination
-/

/-- The offsets requested by the Find loop: one request per full
(length >= pageSize 100) page prefix, plus the one request that sees
the first empty-or-short page (or the empty answer after the last
served page), offsets advancing by the fixed page size. -/
theorem findLoop_offsets (pages : List (List Nat)) (off : Nat) :
    (findLoop pages 100 off).2 =
      List.range' off
        ((pages.takeWhile (fun p => decide (100 ≤ p.length))).length + 1)
        100 := by
  induction pages generalizing off with
  | nil => simp [findLoop, List.takeWhile]
  | cons ids rest ih =>
    by_cases hempty : ids.isEmpty
    · have hnil : ids = [] := List.isEmpty_iff.mp hempty
      subst hnil
      simp [findLoop, List.takeWhile_cons]
    · by_cases hshort : ids.length < 100
      · have hpred : (decide (100 ≤ ids.length)) = false := by
          simp [decide_eq_false_iff_not]
          omega
        simp [findLoop, hempty, hshort, List.takeWhile_cons, hpred]
      · have hpred : (decide (100 ≤ ids.length)) = true := by
          simp [decide_eq_true_eq]
          omega
        simp only [findLoop, hempty, hshort, List.takeWhile_cons, hpred,
          if_true, if_false, Bool.false_eq_true, ite_false]
        rw [ih (off + 100)]
        simp [List.range'_succ]

/-- The identifiers accumulated by the Find loop: the processed pages
are exactly the full-page prefix plus the first stopping page,
flattened in order, falsy (zero) identifiers dropped, the rest
rendered as strings. -/
theorem findLoop_ids (pages : List (List Nat)) (off : Nat) :
    (findLoop pages 100 off).1 =
      ((pages.take
          ((pages.takeWhile (fun p => decide (100 ≤ p.length))).length + 1)).flatten.filter
        (fun i => i != 0)).map toString := by
  induction pages generalizing off with
  | nil => simp [findLoop]
  | cons ids rest ih =>
    by_cases hempty : ids.isEmpty
    · have hnil : ids = [] := List.isEmpty_iff.mp hempty
      subst hnil
      simp [findLoop, List.takeWhile_cons]
    · by_cases hshort : ids.length < 100
      · have hpred : (decide (100 ≤ ids.length)) = false := by
          simp [decide_eq_false_iff_not]
          omega
        simp [findLoop, hempty, hshort, List.takeWhile_cons, hpred]
      · have hpred : (decide (100 ≤ ids.length)) = true := by
          simp [decide_eq_true_eq]
          omega
        simp only [findLoop, hempty, hshort, List.takeWhile_cons, hpred,
          if_true, if_false, Bool.false_eq_true, ite_false]
        rw [ih (off + 100)]
        simp [List.take_cons, List.flatten_cons, List.filter_append,
          List.map_append]

/-- C1: For every sequence of server pages, the paginated Find loop
terminates at the first page with zero results or fewer than the page
size 100 (one request per full page plus the stopping request, offsets
advancing by 100 from 0); for pages of sizes [100, 100, 37] with no
falsy identifiers it issues exactly 3 requests at paginationOffset
0 / 100 / 200 and returns the 237 identifiers, coerced to string. -/
theorem C1_find_pagination_loop :
    (∀ pages : List (List Nat),
      (get_all_ids_with_filter pages).2 =
        List.range' 0
          ((pages.takeWhile (fun p => decide (100 ≤ p.length))).length + 1)
          100) ∧
    (∀ p1 p2 p3 : List Nat,
      p1.length = 100 → p2.length = 100 → p3.length = 37 →
      (∀ i ∈ p1 ++ p2 ++ p3, i ≠ 0) →
      (get_all_ids_with_filter [p1, p2, p3]).2 = [0, 100, 200] ∧
      (get_all_ids_with_filter [p1, p2, p3]).1 = (p1 ++ p2 ++ p3).map toString ∧
      (get_all_ids_with_filter [p1, p2, p3]).1.length = 237) := by
  constructor
  · intro pages
    exact findLoop_offsets pages 0
  · intro p1 p2 p3 h1 h2 h3 hnz
    have hw : ([p1, p2, p3].takeWhile (fun p => decide (100 ≤ p.length))).length = 2 := by
      simp [List.takeWhile_cons, h1, h2, h3]
    have hflat : (List.take (2 + 1) [p1, p2, p3]).flatten = p1 ++ (p2 ++ p3) := by
      simp
    have hfilter : (p1 ++ (p2 ++ p3)).filter (fun i => i != 0) = p1 ++ (p2 ++ p3) := by
      rw [List.filter_eq_self]
      intro a ha
      have ha2 : a ∈ p1 ++ p2 ++ p3 := by
        simpa [List.append_assoc] using ha
      simpa using hnz a ha2
    refine ⟨?_, ?_, ?_⟩
    · rw [show (get_all_ids_with_filter [p1, p2, p3]).2 =
          (findLoop [p1, p2, p3] 100 0).2 from rfl, findLoop_offsets, hw]
      rfl
    · rw [show (get_all_ids_with_filter [p1, p2, p3]).1 =
          (findLoop [p1, p2, p3] 100 0).1 from rfl, findLoop_ids, hw,
        hflat, hfilter]
      simp [List.append_assoc]
    · rw [show (get_all_ids_with_filter [p1, p2, p3]).1 =
          (findLoop [p1, p2, p3] 100 0).1 from rfl, findLoop_ids, hw,
        hflat, hfilter]
      simp [h1, h2, h3]

/-- Witness for C1 at a concrete mocked server: pages of sizes
100 / 100 / 37 with identifiers 1, 2, 3. -/
theorem C1_find_pagination_loop_witness :
    (get_all_ids_with_filter
        [List.replicate 100 1, List.replicate 100 2, List.replicate 37 3]).2
      = [0, 100, 200] ∧
    (get_all_ids_with_filter
        [List.replicate 100 1, List.replicate 100 2, List.replicate 37 3]).1.length
      = 237 := by
  have h := C1_find_pagination_loop.2
    (List.replicate 100 1) (List.replicate 100 2) (List.replicate 37 3)
    (by simp) (by simp) (by simp)
    (by
      intro i hi
      simp only [List.mem_append, List.mem_replicate] at hi
      rcases hi with (⟨_, h⟩ | ⟨_, h⟩) | ⟨_, h⟩ <;> omega)
  exact ⟨h.1, h.2.2⟩

/-!
## Helper lemmas: batched detail fetch
-/

theorem chunks100_ne (ids : List String) (h : ids ≠ []) :
    chunks100 ids = ids.take 100 :: chunks100 (ids.drop 100) := by
  cases ids with
  | nil => exact absurd rfl h
  | cons a rest => rw [chunks100]

theorem chunks100_flatten (ids : List String) :
    (chunks100 ids).flatten = ids := by
  induction ids using chunks100.induct with
  | case1 => simp [chunks100]
  | case2 a rest ih =>
    rw [chunks100]
    simp only [List.flatten_cons, ih, List.take_append_drop]

theorem chunks100_length (ids : List String) :
    (chunks100 ids).length = (ids.length + 99) / 100 := by
  induction ids using chunks100.induct with
  | case1 => simp [chunks100]
  | case2 a rest ih =>
    rw [chunks100]
    simp only [List.length_cons, ih, List.length_drop]
    have hlen : 1 ≤ (a :: rest).length := by simp
    omega

theorem get_records_batch_spec (bs : List (List String))
    (resp : List String → Nat × List Dict)
    (acc : List Dict × List (List String)) :
    bs.foldl
      (fun acc batch =>
        let r := resp batch
        if r.1 ≠ 200 then (acc.1, acc.2 ++ [batch])
        else (acc.1 ++ r.2, acc.2 ++ [batch]))
      acc
    = (acc.1 ++ bs.flatMap (fun b => if (resp b).1 = 200 then (resp b).2 else []),
       acc.2 ++ bs) := by
  induction bs generalizing acc with
  | nil => simp
  | cons b rest ih =>
    simp only [List.foldl_cons, List.flatMap_cons]
    by_cases hb : (resp b).1 = 200
    · rw [ih]
      simp [hb, List.append_assoc]
    · rw [ih]
      simp [hb, List.append_assoc]

/-- C4: the batched detail fetch partitions the identifier list into
consecutive chunks of 100 (the last chunk holding the remainder, every
chunk put back together giving the original list), issues exactly
ceil(n/100) = (n+99)/100 requests — one per chunk, regardless of the
statuses the server answers, so a failing chunk never stops the
remaining ones — each contributing its `items` exactly when its status
is 200; for n = 250 the chunk sizes are 100 / 100 / 50. -/
theorem C4_batched_detail_fetch :
    (∀ ids : List String, (chunks100 ids).flatten = ids) ∧
    (∀ ids : List String, (chunks100 ids).length = (ids.length + 99) / 100) ∧
    (∀ (ids : List String) (resp : List String → Nat × List Dict),
      (get_records_batch ids resp).2 = chunks100 ids) ∧
    (∀ (ids : List String) (resp : List String → Nat × List Dict),
      (get_records_batch ids resp).1 =
        (chunks100 ids).flatMap
          (fun b => if (resp b).1 = 200 then (resp b).2 else [])) ∧
    (∀ ids : List String, ids.length = 250 →
      (chunks100 ids).map List.length = [100, 100, 50]) := by
  refine ⟨chunks100_flatten, chunks100_length, ?_, ?_, ?_⟩
  · intro ids resp
    rw [show get_records_batch ids resp =
        (chunks100 ids).foldl
          (fun acc batch =>
            let r := resp batch
            if r.1 ≠ 200 then (acc.1, acc.2 ++ [batch])
            else (acc.1 ++ r.2, acc.2 ++ [batch]))
          ([], []) from rfl,
      get_records_batch_spec]
    simp
  · intro ids resp
    rw [show get_records_batch ids resp =
        (chunks100 ids).foldl
          (fun acc batch =>
            let r := resp batch
            if r.1 ≠ 200 then (acc.1, acc.2 ++ [batch])
            else (acc.1 ++ r.2, acc.2 ++ [batch]))
          ([], []) from rfl,
      get_records_batch_spec]
    simp
  · intro ids h
    have h0 : ids ≠ [] := by
      intro e
      rw [e] at h
      simp at h
    have ld1 : (ids.drop 100).length = 150 := by
      rw [List.length_drop, h]
    have h1 : ids.drop 100 ≠ [] := by
      intro e
      rw [e] at ld1
      simp at ld1
    have ld2 : ((ids.drop 100).drop 100).length = 50 := by
      rw [List.length_drop, ld1]
    have h2 : (ids.drop 100).drop 100 ≠ [] := by
      intro e
      rw [e] at ld2
      simp at ld2
    have ld3 : (((ids.drop 100).drop 100).drop 100) = [] :=
      List.eq_nil_of_length_eq_zero (by rw [List.length_drop, ld2])
    rw [chunks100_ne ids h0, chunks100_ne _ h1, chunks100_ne _ h2, ld3]
    simp only [chunks100, List.map_cons, List.map_nil, List.length_take,
      ld1, ld2, h]
    decide

/-- Witness for C4: 250 concrete identifiers chunk as 100 / 100 / 50. -/
theorem C4_batched_detail_fetch_witness :
    (chunks100 ((List.range 250).map toString)).map List.length
      = [100, 100, 50] :=
  C4_batched_detail_fetch.2.2.2.2 ((List.range 250).map toString) (by simp)

/-- C3, amended: on a 401 first response the gateway performs the
unconditional refresh of streams.py:74 and retries exactly once, with
the Token header rebuilt from the authenticator; the header rebuild
itself refreshes once more when the just-refreshed token is still
invalid at `now` (absent or near expiry), so one or two refreshes
occur between the two requests — exactly one precisely when the
refreshed token is valid — and the retry carries the token installed
by the last of those refreshes; a repeated 401 is returned to the
caller with no further retry, and a non-401 first response, 2xx or
not, is returned as-is after a single request. -/
theorem C3_gateway_single_401_retry (initial : AuthState) (now : Int)
    (refreshResult : Nat → String × Int) (resp : Nat → Nat) :
    (resp 0 = 401 →
      (gatewayRequest initial now refreshResult resp).status = resp 1 ∧
      (gatewayRequest initial now refreshResult resp).requestCount = 2 ∧
      (gatewayRequest initial now refreshResult resp).refreshesBetween
        = (if is_token_valid
              (some (refreshResult
                (gatewayRequest initial now refreshResult resp).refreshesBefore).1)
              (some (refreshResult
                (gatewayRequest initial now refreshResult resp).refreshesBefore).2)
              now
           then 1 else 2) ∧
      (∃ t1, (gatewayRequest initial now refreshResult resp).tokensUsed
        = [t1, some (refreshResult
            ((gatewayRequest initial now refreshResult resp).refreshesBefore +
              (gatewayRequest initial now refreshResult resp).refreshesBetween
              - 1)).1])) ∧
    (resp 0 = 401 → resp 1 = 401 →
      (gatewayRequest initial now refreshResult resp).status = 401 ∧
      (gatewayRequest initial now refreshResult resp).requestCount = 2) ∧
    (resp 0 ≠ 401 →
      (gatewayRequest initial now refreshResult resp).status = resp 0 ∧
      (gatewayRequest initial now refreshResult resp).requestCount = 1 ∧
      (gatewayRequest initial now refreshResult resp).refreshesBetween = 0) := by
  refine ⟨?_, ?_, ?_⟩
  · intro h
    simp only [gatewayRequest, h, reduceIte]
    set s2 := ensure_valid refreshResult now
      (ensure_valid refreshResult now (initial, 0)) with hs2
    by_cases hv : is_token_valid (some (refreshResult s2.2).1)
      (some (refreshResult s2.2).2) now
    · have hstep : ensure_valid refreshResult now (do_refresh refreshResult s2)
          = do_refresh refreshResult s2 := by
        simp [ensure_valid, do_refresh, hv]
      refine ⟨trivial, trivial, ?_, ?_⟩
      · rw [hstep]
        simp [do_refresh, hv]
      · refine ⟨s2.1.token, ?_⟩
        rw [hstep]
        simp [do_refresh]
    · have hstep : ensure_valid refreshResult now (do_refresh refreshResult s2)
          = do_refresh refreshResult (do_refresh refreshResult s2) := by
        simp [ensure_valid, do_refresh, hv]
      refine ⟨trivial, trivial, ?_, ?_⟩
      · rw [hstep]
        simp only [do_refresh]
        rw [if_neg hv]
        omega
      · refine ⟨s2.1.token, ?_⟩
        rw [hstep]
        have hidx : s2.2 + ((do_refresh refreshResult
            (do_refresh refreshResult s2)).2 - s2.2) - 1 = s2.2 + 1 := by
          simp only [do_refresh]
          omega
        rw [hidx]
        simp [do_refresh]
  · intro h h2
    simp [gatewayRequest, h, h2]
  · intro h
    simp [gatewayRequest, h]

/-- Counterexample to C3 as stated: with a valid initial token, a
token endpoint whose replies carry a falsy (absent) expiry, and a
server answering 401 then 200, the 401 is followed by TWO refreshes
before the retry — the unconditional one of streams.py:74 plus the one
inside the `auth_headers` read of streams.py:75 — not exactly one. -/
theorem C3_counterexample :
    (gatewayRequest ⟨some "tok", some 1000000⟩ 0 (fun _ => ("fresh", 0))
        (fun i => if i = 0 then 401 else 200)).status = 200 ∧
    (gatewayRequest ⟨some "tok", some 1000000⟩ 0 (fun _ => ("fresh", 0))
        (fun i => if i = 0 then 401 else 200)).requestCount = 2 ∧
    ¬ ((gatewayRequest ⟨some "tok", some 1000000⟩ 0 (fun _ => ("fresh", 0))
        (fun i => if i = 0 then 401 else 200)).refreshesBetween = 1) ∧
    (gatewayRequest ⟨some "tok", some 1000000⟩ 0 (fun _ => ("fresh", 0))
        (fun i => if i = 0 then 401 else 200)).refreshesBetween = 2 :=
  ⟨rfl, rfl, by decide, rfl⟩

/-- Witness for C3 (amended): with a valid initial token and a token
endpoint handing out long-lived tokens, a server answering 401 then
200 yields one success after exactly one mid-flight refresh, and a
server answering 401 twice hands the second 401 back. -/
theorem C3_gateway_single_401_retry_witness :
    (gatewayRequest ⟨some "tok", some 1000000⟩ 0 (fun _ => ("fresh", 1000000))
        (fun i => if i = 0 then 401 else 200)).status = 200 ∧
    (gatewayRequest ⟨some "tok", some 1000000⟩ 0 (fun _ => ("fresh", 1000000))
        (fun i => if i = 0 then 401 else 200)).requestCount = 2 ∧
    (gatewayRequest ⟨some "tok", some 1000000⟩ 0 (fun _ => ("fresh", 1000000))
        (fun i => if i = 0 then 401 else 200)).refreshesBetween = 1 ∧
    ((gatewayRequest ⟨some "tok", some 1000000⟩ 0 (fun _ => ("fresh", 1000000))
        (fun _ => 401)).status = 401 ∧
      (gatewayRequest ⟨some "tok", some 1000000⟩ 0 (fun _ => ("fresh", 1000000))
        (fun _ => 401)).requestCount = 2) := by
  have h := (C3_gateway_single_401_retry ⟨some "tok", some 1000000⟩ 0
    (fun _ => ("fresh", 1000000)) (fun i => if i = 0 then 401 else 200)).1
    (by decide)
  refine ⟨by simpa using h.1, h.2.1, ?_, ?_⟩
  · rw [h.2.2.1]
    decide
  · exact (C3_gateway_single_401_retry ⟨some "tok", some 1000000⟩ 0
      (fun _ => ("fresh", 1000000)) (fun _ => 401)).2.1 (by decide) (by decide)

/-- C5: `is_token_valid` is false when no token or no expiry is
recorded (the key absent or Python-falsy, i.e. an empty token string
or a zero expiry, the reading the code's truthiness checks give to
"recorded"), false whenever `expiry - now < 120` seconds — negative
remaining time included — and true otherwise. -/
theorem C5_token_validity :
    (∀ (e : Option Int) (now : Int), is_token_valid none e now = false) ∧
    (∀ (t : Option String) (now : Int), is_token_valid t none now = false) ∧
    (∀ (e : Option Int) (now : Int), is_token_valid (some "") e now = false) ∧
    (∀ (t : Option String) (now : Int), is_token_valid t (some 0) now = false) ∧
    (∀ (t : String) (e now : Int), e - now < 120 →
      is_token_valid (some t) (some e) now = false) ∧
    (∀ (t : String) (e now : Int), t ≠ "" → e ≠ 0 → ¬(e - now < 120) →
      is_token_valid (some t) (some e) now = true) := by
  refine ⟨?_, ?_, ?_, ?_, ?_, ?_⟩
  · intro e now
    cases e <;> simp [is_token_valid]
  · intro t now
    cases t <;> simp [is_token_valid]
  · intro e now
    cases e <;> simp [is_token_valid]
  · intro t now
    cases t <;> simp [is_token_valid]
  · intro t e now h
    by_cases ht : t = "" <;> by_cases he : e = 0 <;>
      simp [is_token_valid, ht, he, h]
  · intro t e now h1 h2 h3
    simp [is_token_valid, h1, h2, h3]

/-- Witness for C5: 119 seconds of remaining validity is rejected,
1000 seconds is accepted. -/
theorem C5_token_validity_witness :
    is_token_valid (some "tok") (some 1000) 881 = false ∧
    is_token_valid (some "tok") (some 1000) 0 = true :=
  ⟨C5_token_validity.2.2.2.2.1 "tok" 1000 881 (by decide),
   C5_token_validity.2.2.2.2.2 "tok" 1000 0 (by decide) (by decide) (by decide)⟩

/-- C7: the timestamp flavor's starting point is the saved
replication-key value when truthy, else the configured `start_date`
when truthy, else the 1970-01-01 epoch floor; the unix-millisecond
flavor's starting point is the saved checkpoint when present, else the
fixed constant 1640995200000 (Jan 1st, 2022). -/
theorem C7_cursor_starting_points :
    (∀ (r : String) (sd : Option String), r ≠ "" →
      get_starting_time (some r) sd = r) ∧
    (∀ sd : String, sd ≠ "" → get_starting_time none (some sd) = sd) ∧
    get_starting_time none none = "1970-01-01T00:00:00" ∧
    (∀ x : Int, effective_start_unix (some x) = x) ∧
    effective_start_unix none = 1640995200000 := by
  refine ⟨?_, ?_, rfl, ?_, rfl⟩
  · intro r sd h
    simp [get_starting_time, h]
  · intro sd h
    simp [get_starting_time, startDateOrEpoch, h]
  · intro x
    rfl

/-- Witness for C7 at concrete cursor values. -/
theorem C7_cursor_starting_points_witness :
    get_starting_time (some "2024-05-01T00:00:00") (some "2020-01-01T00:00:00")
      = "2024-05-01T00:00:00" ∧
    get_starting_time none (some "2020-01-01T00:00:00") = "2020-01-01T00:00:00" ∧
    effective_start_unix (some 1700000000000) = 1700000000000 :=
  ⟨C7_cursor_starting_points.1 "2024-05-01T00:00:00" (some "2020-01-01T00:00:00")
      (by decide),
   C7_cursor_starting_points.2.1 "2020-01-01T00:00:00" (by decide),
   C7_cursor_starting_points.2.2.2.1 1700000000000⟩


/-!
## Helper lemmas: unix-cursor run traces
-/

theorem recordsOf_append (a b : List RunEv) :
    recordsOf (a ++ b) = recordsOf a ++ recordsOf b :=
  List.filterMap_append a b _

theorem recordsOf_stamped (f : Dict → Dict) (l : List Dict) :
    recordsOf (l.map (fun item => RunEv.yielded (f item))) = l.map f := by
  induction l with
  | nil => rfl
  | cons a rest ih =>
    simp only [List.map_cons]
    rw [show recordsOf (RunEv.yielded (f a)
          :: rest.map (fun item => RunEv.yielded (f item)))
        = f a :: recordsOf (rest.map (fun item => RunEv.yielded (f item)))
      from rfl]
    rw [ih]

theorem finalReplValue_append (init : Option Int) (a b : List RunEv) :
    finalReplValue init (a ++ b) = finalReplValue (finalReplValue init a) b := by
  simp [finalReplValue, List.foldl_append]

theorem finalReplValue_stamped (f : Dict → Dict) (l : List Dict)
    (init : Option Int) :
    finalReplValue init (l.map (fun item => RunEv.yielded (f item))) = init := by
  induction l generalizing init with
  | nil => rfl
  | cons a rest ih =>
    simp only [List.map_cons]
    rw [show finalReplValue init (RunEv.yielded (f a)
          :: rest.map (fun item => RunEv.yielded (f item)))
        = finalReplValue init (rest.map (fun item => RunEv.yielded (f item)))
      from rfl]
    exact ih init

/-- The shape of a successful (status-200) unix-cursor run with a
present context: the request with the starting cursor, one yield per
item stamped with that same cursor, then the single clock read at
position `1 + items.length` and the state write of that reading. -/
theorem optiplyGetRecords_200 (st : Option Int) (now : Nat → Int)
    (items : List Dict) :
    optiplyGetRecords (some st) now 200 items
      = RunEv.request (effective_start_unix st) ::
          (items.map (fun item => RunEv.yielded
              (setKey item "unix_timestamp"
                (JVal.vint (effective_start_unix st))))
            ++ [RunEv.clockRead (now (1 + items.length)),
                RunEv.stateWrite (now (1 + items.length))]) := by
  simp [optiplyGetRecords]

/-- C2, amended: in a successful (status-200) unix-cursor run, every
emitted record carries the run's starting cursor (the saved checkpoint
or the default floor) in its `unix_timestamp` field — the same value
for all records of the run; the checkpoint persisted for the next run
is the wall-clock instant captured at position `1 + items.length`,
i.e. after the current page of records has been fully yielded (at
completion of the fetch, not at its start); and the state write occurs
strictly after every yield in the trace. -/
theorem C2_unix_cursor_checkpoint (st : Option Int) (now : Nat → Int)
    (items : List Dict) :
    (∀ r ∈ recordsOf (optiplyGetRecords (some st) now 200 items),
      dget r "unix_timestamp" = some (JVal.vint (effective_start_unix st))) ∧
    finalReplValue st (optiplyGetRecords (some st) now 200 items)
      = some (now (1 + items.length)) ∧
    (∃ pre post, optiplyGetRecords (some st) now 200 items = pre ++ post ∧
      recordsOf post = [] ∧ (∀ v : Int, RunEv.stateWrite v ∉ pre)) := by
  have hrec : recordsOf (optiplyGetRecords (some st) now 200 items)
      = items.map (fun item => setKey item "unix_timestamp"
          (JVal.vint (effective_start_unix st))) := by
    rw [optiplyGetRecords_200]
    rw [show recordsOf (RunEv.request (effective_start_unix st) ::
          (items.map (fun item => RunEv.yielded
              (setKey item "unix_timestamp"
                (JVal.vint (effective_start_unix st))))
            ++ [RunEv.clockRead (now (1 + items.length)),
                RunEv.stateWrite (now (1 + items.length))]))
        = recordsOf
            (items.map (fun item => RunEv.yielded
              (setKey item "unix_timestamp"
                (JVal.vint (effective_start_unix st))))
            ++ [RunEv.clockRead (now (1 + items.length)),
                RunEv.stateWrite (now (1 + items.length))])
      from rfl]
    rw [recordsOf_append, recordsOf_stamped]
    simp [recordsOf, List.filterMap_cons]
  refine ⟨?_, ?_, ?_⟩
  · intro r hr
    rw [hrec] at hr
    obtain ⟨item, _, rfl⟩ := List.mem_map.mp hr
    exact dget_setKey_same item "unix_timestamp" _
  · rw [optiplyGetRecords_200]
    rw [show finalReplValue st (RunEv.request (effective_start_unix st) ::
          (items.map (fun item => RunEv.yielded
              (setKey item "unix_timestamp"
                (JVal.vint (effective_start_unix st))))
            ++ [RunEv.clockRead (now (1 + items.length)),
                RunEv.stateWrite (now (1 + items.length))]))
        = finalReplValue st
            (items.map (fun item => RunEv.yielded
              (setKey item "unix_timestamp"
                (JVal.vint (effective_start_unix st))))
            ++ [RunEv.clockRead (now (1 + items.length)),
                RunEv.stateWrite (now (1 + items.length))])
      from rfl]
    rw [finalReplValue_append, finalReplValue_stamped]
    rfl
  · refine ⟨RunEv.request (effective_start_unix st) ::
        items.map (fun item => RunEv.yielded
          (setKey item "unix_timestamp"
            (JVal.vint (effective_start_unix st)))),
      [RunEv.clockRead (now (1 + items.length)),
       RunEv.stateWrite (now (1 + items.length))], ?_, rfl, ?_⟩
    · rw [optiplyGetRecords_200]
      simp
    · intro v hv
      rcases List.mem_cons.mp hv with h | h
      · exact RunEv.noConfusion h
      · obtain ⟨item, _, he⟩ := List.mem_map.mp h
        exact RunEv.noConfusion he

/-- Counterexample to C2 as stated: with a strictly increasing clock
(reading `i` at position `i`), saved checkpoint 5 and one item, the
persisted checkpoint is the completion-time reading 2, not the
start-of-call reading 0. -/
theorem C2_counterexample :
    finalReplValue (some 5)
        (optiplyGetRecords (some (some 5)) (fun i => (i : Int)) 200
          [[("a", JVal.vint 1)]])
      = some 2 ∧
    (fun i => (i : Int)) 0 = 0 ∧
    ¬ finalReplValue (some 5)
        (optiplyGetRecords (some (some 5)) (fun i => (i : Int)) 200
          [[("a", JVal.vint 1)]])
      = some ((fun i => (i : Int)) 0) :=
  ⟨by decide, rfl, by decide⟩

/-- Witness for C2 (amended) at the same concrete run: the one record
is stamped with the starting cursor 5 and the persisted checkpoint is
the completion-time clock reading 2. -/
theorem C2_unix_cursor_checkpoint_witness :
    dget [("a", JVal.vint 1), ("unix_timestamp", JVal.vint 5)] "unix_timestamp"
      = some (JVal.vint 5) ∧
    finalReplValue (some 5)
        (optiplyGetRecords (some (some 5)) (fun i => (i : Int)) 200
          [[("a", JVal.vint 1)]])
      = some 2 := by
  constructor
  · exact (C2_unix_cursor_checkpoint (some 5) (fun i => (i : Int))
      [[("a", JVal.vint 1)]]).1 _ (by decide)
  · have h := (C2_unix_cursor_checkpoint (some 5) (fun i => (i : Int))
      [[("a", JVal.vint 1)]]).2.1
    simpa using h

/-- C9: when the timestamped fetch of a unix-cursor run returns a
non-200 status, the run yields zero records and leaves the saved
`replication_key_value` exactly as it was — the checkpoint is not
advanced on error. -/
theorem C9_non200_leaves_state (ctx : Option (Option Int)) (now : Nat → Int)
    (status : Nat) (items : List Dict) (h : status ≠ 200) :
    recordsOf (optiplyGetRecords ctx now status items) = [] ∧
    finalReplValue (ctx.getD none) (optiplyGetRecords ctx now status items)
      = ctx.getD none := by
  constructor
  · simp [optiplyGetRecords, h, recordsOf, List.filterMap_cons]
  · simp [optiplyGetRecords, h, finalReplValue]

/-- Witness for C9: a 500 answer with a saved checkpoint of 7 yields
nothing and keeps the checkpoint at 7. -/
theorem C9_non200_leaves_state_witness :
    recordsOf (optiplyGetRecords (some (some 7)) (fun _ => 99) 500
        [[("a", JVal.vint 1)]]) = [] ∧
    finalReplValue (some 7)
        (optiplyGetRecords (some (some 7)) (fun _ => 99) 500
          [[("a", JVal.vint 1)]])
      = some 7 :=
  C9_non200_leaves_state (some (some 7)) (fun _ => 99) 500
    [[("a", JVal.vint 1)]] (by decide)

/-- C6, amended: one refresh attempt fails with `EmptyResponseError`
when the response body is not valid JSON, with `TokenRefreshError`
carrying the message "Invalid token response format" — the same
exception class that wraps transport-level errors, distinguished only
by its message, there being no separate InvalidTokenFormat class —
when the body is valid JSON but lacks a `token` field, and with
`TokenRefreshError` wrapping the error text when the transport fails;
every failure kind is retried under the backoff decorator, an error
surfacing only after 5 attempts, with exponential factor-2 waits. -/
theorem C6_refresh_failure_kinds (r : TResp) (j : Json) (e : String)
    (resp fresp : Nat → Except String TResp) (v : Dict) :
    (r.status < 400 → r.body = none →
      update_access_token (.ok r) = .error (.emptyResponse
        "Failed converting response to json, because response is empty")) ∧
    (r.status < 400 → r.body = some j → hasTokenField j = false →
      update_access_token (.ok r)
        = .error (.tokenRefresh "Invalid token response format")) ∧
    (update_access_token (.error e)
      = .error (.tokenRefresh ("Token refresh failed: " ++ e))) ∧
    ((∀ i, i ≤ 4 → ∃ err, update_access_token (fresp i) = .error err) →
      (∃ err, (update_access_token_with_retry fresp).1 = .error err) ∧
      (update_access_token_with_retry fresp).2 = 5) ∧
    ((∃ err, update_access_token (resp 0) = .error err) →
      update_access_token (resp 1) = .ok v →
      (update_access_token_with_retry resp).1 = .ok v ∧
      (update_access_token_with_retry resp).2 = 2) ∧
    backoffDelays = [2, 4, 8, 16] := by
  refine ⟨?_, ?_, rfl, ?_, ?_, by decide⟩
  · intro hs hb
    have hs2 : ¬ (400 ≤ r.status) := by omega
    simp [update_access_token, hs2, hb]
  · intro hs hb htok
    have hs2 : ¬ (400 ≤ r.status) := by omega
    cases j with
    | scalar v2 => simp [update_access_token, hs2, hb]
    | array l => simp [update_access_token, hs2, hb]
    | object fields =>
      have hnone : dget fields "token" = none := by
        cases hd : dget fields "token" with
        | none => rfl
        | some tv => simp [hasTokenField, hd] at htok
      simp [update_access_token, hs2, hb, hnone]
  · intro hall
    obtain ⟨e0, h0⟩ := hall 0 (by omega)
    obtain ⟨e1, h1⟩ := hall 1 (by omega)
    obtain ⟨e2, h2⟩ := hall 2 (by omega)
    obtain ⟨e3, h3⟩ := hall 3 (by omega)
    obtain ⟨e4, h4⟩ := hall 4 (by omega)
    have hkey : update_access_token_with_retry fresp = (.error e4, 5) := by
      simp [update_access_token_with_retry, retry_update, h0, h1, h2, h3, h4]
    rw [hkey]
    exact ⟨⟨e4, rfl⟩, rfl⟩
  · intro hfail hok
    obtain ⟨e0, h0⟩ := hfail
    have hkey : update_access_token_with_retry resp = (.ok v, 2) := by
      simp [update_access_token_with_retry, retry_update, h0, hok]
    rw [hkey]
    exact ⟨rfl, rfl⟩

/-- Counterexample to C6 as stated: a valid-JSON body lacking a
`token` field does not fail with a distinct InvalidTokenFormat kind —
it raises `TokenRefreshError` (message "Invalid token response
format"), the very class that wraps transport-level errors, as the two
probes below show. -/
theorem C6_counterexample :
    update_access_token
        (.ok ⟨200, some (Json.object [("expire", JVal.vint 99)])⟩)
      = .error (AuthErr.tokenRefresh "Invalid token response format") ∧
    isTokenRefreshKind (update_access_token
        (.ok ⟨200, some (Json.object [("expire", JVal.vint 99)])⟩)) = true ∧
    isTokenRefreshKind (update_access_token (.error "connection refused"))
      = true :=
  ⟨rfl, by decide, by decide⟩

/-- Witness for C6 (amended) at concrete responses: a non-JSON body,
a JSON array body, a constant transport failure exhausting all 5
attempts, and a failure followed by a success retried exactly once. -/
theorem C6_refresh_failure_kinds_witness :
    update_access_token (.ok ⟨200, none⟩)
      = .error (.emptyResponse
          "Failed converting response to json, because response is empty") ∧
    update_access_token (.ok ⟨200, some (Json.array [])⟩)
      = .error (.tokenRefresh "Invalid token response format") ∧
    ((∃ err, (update_access_token_with_retry (fun _ => .error "boom")).1
        = .error err) ∧
      (update_access_token_with_retry (fun _ => .error "boom")).2 = 5) ∧
    ((update_access_token_with_retry (fun i => if i = 0 then .error "boom"
        else .ok ⟨200, some (Json.object [("token", JVal.vstr "t")])⟩)).1
      = .ok [("token", JVal.vstr "t"), ("token_expire", JVal.vint 0)] ∧
      (update_access_token_with_retry (fun i => if i = 0 then .error "boom"
        else .ok ⟨200, some (Json.object [("token", JVal.vstr "t")])⟩)).2
      = 2) := by
  refine ⟨?_, ?_, ?_, ?_⟩
  · exact (C6_refresh_failure_kinds ⟨200, none⟩ (Json.array []) ""
      (fun _ => .error "") (fun _ => .error "") []).1 (by decide) rfl
  · exact (C6_refresh_failure_kinds ⟨200, some (Json.array [])⟩
      (Json.array []) "" (fun _ => .error "") (fun _ => .error "") []).2.1
      (by decide) rfl (by decide)
  · exact (C6_refresh_failure_kinds ⟨200, none⟩ (Json.array []) ""
      (fun _ => .error "") (fun _ => .error "boom") []).2.2.2.1
      (fun i _ => ⟨.tokenRefresh "Token refresh failed: boom", rfl⟩)
  · exact (C6_refresh_failure_kinds ⟨200, none⟩ (Json.array []) ""
      (fun i => if i = 0 then .error "boom"
        else .ok ⟨200, some (Json.object [("token", JVal.vstr "t")])⟩)
      (fun _ => .error "") [("token", JVal.vstr "t"), ("token_expire", JVal.vint 0)]).2.2.2.2.1
      ⟨.tokenRefresh "Token refresh failed: boom", rfl⟩ rfl

/-!
## Helper lemma: a two-key dict update
-/

theorem dictUpdate_pair (d : Dict) (k1 k2 : String) (v1 v2 : JVal) :
    dictUpdate d [(k1, v1), (k2, v2)] = setKey (setKey d k1 v1) k2 v2 :=
  rfl

/-- C8: after a successful refresh (status 200, a JSON object carrying
a `token` field) with a succeeding write, the persisted token file is
the new `token` / `token_expire` pair merged over the previously
persisted object — the two keys take their new values and every other
pre-existing key reads exactly as before; with a failing write, the
refresh still returns its token info (the error is swallowed, the run
is not aborted) and the file keeps its prior contents. -/
theorem C8_persist_merge (file : Option Dict) (fields : Dict) (tok : JVal)
    (htok : dget fields "token" = some tok) :
    update_and_persist (.ok ⟨200, some (Json.object fields)⟩) file true
      = (.ok [("token", tok),
              ("token_expire", (dget fields "expire").getD (JVal.vint 0))],
         some (dictUpdate (read_file file)
           [("token", tok),
            ("token_expire", (dget fields "expire").getD (JVal.vint 0))])) ∧
    dget (dictUpdate (read_file file)
        [("token", tok),
         ("token_expire", (dget fields "expire").getD (JVal.vint 0))]) "token"
      = some tok ∧
    dget (dictUpdate (read_file file)
        [("token", tok),
         ("token_expire", (dget fields "expire").getD (JVal.vint 0))])
        "token_expire"
      = some ((dget fields "expire").getD (JVal.vint 0)) ∧
    (∀ k, k ≠ "token" → k ≠ "token_expire" →
      dget (dictUpdate (read_file file)
          [("token", tok),
           ("token_expire", (dget fields "expire").getD (JVal.vint 0))]) k
        = dget (read_file file) k) ∧
    update_and_persist (.ok ⟨200, some (Json.object fields)⟩) file false
      = (.ok [("token", tok),
              ("token_expire", (dget fields "expire").getD (JVal.vint 0))],
         file) := by
  have hupd : update_access_token (.ok ⟨200, some (Json.object fields)⟩)
      = .ok [("token", tok),
             ("token_expire", (dget fields "expire").getD (JVal.vint 0))] := by
    simp [update_access_token, htok]
  refine ⟨?_, ?_, ?_, ?_, ?_⟩
  · simp [update_and_persist, hupd, write_file]
  · rw [dictUpdate_pair, dget_setKey_ne _ _ _ _ (by decide), dget_setKey_same]
  · rw [dictUpdate_pair, dget_setKey_same]
  · intro k hk1 hk2
    rw [dictUpdate_pair, dget_setKey_ne _ _ _ _ hk2, dget_setKey_ne _ _ _ _ hk1]
  · simp [update_and_persist, hupd, write_file]

/-- Witness for C8 at a concrete file and response: the unrelated key
`a` survives the merge, the two token keys take the new values, and a
failed write keeps the old file while the refresh still succeeds. -/
theorem C8_persist_merge_witness :
    dget (dictUpdate
        (read_file (some [("a", JVal.vint 1), ("token", JVal.vstr "old")]))
        [("token", JVal.vstr "new"), ("token_expire", JVal.vint 9)]) "a"
      = some (JVal.vint 1) ∧
    dget (dictUpdate
        (read_file (some [("a", JVal.vint 1), ("token", JVal.vstr "old")]))
        [("token", JVal.vstr "new"), ("token_expire", JVal.vint 9)]) "token"
      = some (JVal.vstr "new") ∧
    update_and_persist
        (.ok ⟨200, some (Json.object
          [("token", JVal.vstr "new"), ("expire", JVal.vint 9)])⟩)
        (some [("a", JVal.vint 1), ("token", JVal.vstr "old")]) false
      = (.ok [("token", JVal.vstr "new"), ("token_expire", JVal.vint 9)],
         some [("a", JVal.vint 1), ("token", JVal.vstr "old")]) := by
  have h := C8_persist_merge
    (some [("a", JVal.vint 1), ("token", JVal.vstr "old")])
    [("token", JVal.vstr "new"), ("expire", JVal.vint 9)]
    (JVal.vstr "new") rfl
  refine ⟨?_, ?_, ?_⟩
  · have := h.2.2.2.1 "a" (by decide) (by decide)
    simpa using this
  · simpa using h.2.1
  · simpa using h.2.2.2.2

/-- C10: a token-endpoint JSON body with a `token` field but no
`expire` field makes `update_access_token` store `token_expire = 0`
(in the returned `token_info`, hence also in the merged file);
`is_token_valid` then returns false for every current time — a falsy
expiry is treated as no expiry — so every later gateway request
triggers another refresh before sending: at least one, and exactly one
when the endpoint's next reply carries a usable expiry (a second one
follows inside the `auth_headers` read when it does not). -/
theorem C10_missing_expire_forces_refresh :
    update_access_token
        (.ok ⟨200, some (Json.object [("token", JVal.vstr "tok123")])⟩)
      = .ok [("token", JVal.vstr "tok123"), ("token_expire", JVal.vint 0)] ∧
    (∀ existing : Dict,
      dget (dictUpdate existing
          [("token", JVal.vstr "tok123"), ("token_expire", JVal.vint 0)])
          "token_expire"
        = some (JVal.vint 0)) ∧
    (∀ now : Int, is_token_valid (some "tok123") (some 0) now = false) ∧
    (∀ (now : Int) (refreshResult : Nat → String × Int) (resp : Nat → Nat),
      1 ≤ (gatewayRequest ⟨some "tok123", some 0⟩ now
            refreshResult resp).refreshesBefore ∧
      (gatewayRequest ⟨some "tok123", some 0⟩ now
            refreshResult resp).refreshesBefore
        = (if is_token_valid (some (refreshResult 0).1)
              (some (refreshResult 0).2) now
           then 1 else 2)) := by
  refine ⟨rfl, ?_, ?_, ?_⟩
  · intro existing
    rw [dictUpdate_pair, dget_setKey_same]
  · intro now
    simp [is_token_valid]
  · intro now refreshResult resp
    have hv0 : is_token_valid (some "tok123") (some 0) now = false := by
      simp [is_token_valid]
    constructor
    · by_cases h : resp 0 = 401 <;>
        by_cases hv1 : is_token_valid (some (refreshResult 0).1)
          (some (refreshResult 0).2) now <;>
        simp [gatewayRequest, ensure_valid, do_refresh, hv0, hv1, h]
    · by_cases h : resp 0 = 401 <;>
        by_cases hv1 : is_token_valid (some (refreshResult 0).1)
          (some (refreshResult 0).2) now <;>
        simp [gatewayRequest, ensure_valid, do_refresh, hv0, hv1, h]
